import Mathlib

/- Verification of the dav2mkv conversion orchestration layer.

The definitions below are a shallow embedding of `src/dav2mkv.py`: pure
fragments become Lean functions, the filesystem and the external
ffmpeg/ffprobe processes become explicit environment records, and Python
exceptions become an explicit result type.  Byte sizes are `Nat`;
wall-clock durations and size quotients are `Rat` (the Python float
literals in play, 0.8 and 1.2, are exact small decimals, so `Rat` models
the comparisons faithfully). -/

/-- Python `str.lower`, as the per-character lowering that the ASCII
extension tokens exercise. -/
def pyLower (s : String) : String :=
  String.mk (s.data.map Char.toLower)

/-- Split a file name at its last dot: `some (b, a)` where `a` is the
dot-free tail, mirroring the `rfind` in pathlib's `suffix`. -/
def lastDotSplit : List Char → Option (List Char × List Char)
  | [] => none
  | c :: rest =>
    match lastDotSplit rest with
    | some (b, a) => some (c :: b, a)
    | none => if c = '.' then some ([], rest) else none

/-- Pathlib `PurePath.suffix` on a file name: the last dot segment, empty
when the name has no dot, starts with its only dot, or ends in a dot. -/
def pySuffixCore (cs : List Char) : List Char :=
  match lastDotSplit cs with
  | none => []
  | some (b, a) => if b = [] ∨ a = [] then [] else '.' :: a

/-- Pathlib `PurePath.with_suffix` on a file name: drop the old suffix,
append the new one. -/
def pyWithSuffixCore (cs ns : List Char) : List Char :=
  cs.take (cs.length - (pySuffixCore cs).length) ++ ns

def pySuffix (s : String) : String :=
  String.mk (pySuffixCore s.data)

def pyWithSuffix (s ns : String) : String :=
  String.mk (pyWithSuffixCore s.data ns.data)

/-- A filesystem path as its pathlib component list; the last component is
the file name. -/
structure PyPath where
  parts : List String
  deriving DecidableEq

def PyPath.name (p : PyPath) : String :=
  (p.parts.getLast?).getD (String.mk [])

def PyPath.withSuffix (p : PyPath) (ns : String) : PyPath :=
  PyPath.mk (p.parts.dropLast ++ [pyWithSuffix p.name ns])

def PyPath.relativeTo (p base : PyPath) : PyPath :=
  PyPath.mk (p.parts.drop base.parts.length)

def PyPath.join (p q : PyPath) : PyPath :=
  PyPath.mk (p.parts ++ q.parts)

def PyPath.render (p : PyPath) : String :=
  String.intercalate ("/") p.parts

/-- The four counters of `VideoConverter._stats`. -/
structure Stats where
  attempted : Nat
  successful : Nat
  failed : Nat
  totalTime : Rat
  deriving DecidableEq

/-- `VideoConverter._update_stats`.  Note the unconditional `else` branch:
every call that does not pass `successful=True` increments the failed
counter, including the attempt-registering call made at the top of
`convert_video`. -/
def updateStats (s : Stats) (att succ : Bool) (t : Rat) : Stats :=
  Stats.mk
    (if att then s.attempted + 1 else s.attempted)
    (if succ then s.successful + 1 else s.successful)
    (if succ then s.failed else s.failed + 1)
    (s.totalTime + t)

/-- Filesystem view seen by `_verify_output_file`: whether the output path
exists, and the two `stat` byte sizes, `none` when the call raises. -/
structure VerifyEnv where
  outputExists : Bool
  outputStat : Option Nat
  inputStat : Option Nat
  deriving DecidableEq

/-- The guarded size quotient from `_verify_output_file`:
`output_size / input_size if input_size > 0 else 0`. -/
def guardedQuot (osz isz : Nat) : Rat :=
  if 0 < isz then (osz : Rat) / (isz : Rat) else 0

/-- `VideoConverter._verify_output_file`.  First component is the returned
boolean; the second records whether the size warning was logged. -/
def verifyOutputRun (e : VerifyEnv) : Bool × Bool :=
  if e.outputExists = false then (false, false)
  else
    match e.outputStat with
    | none => (false, false)
    | some osz =>
      if osz = 0 then (false, false)
      else
        match e.inputStat with
        | none => (false, false)
        | some isz =>
          (true,
            if guardedQuot osz isz < 4/5 ∨ 6/5 < guardedQuot osz isz
            then true else false)

/-- Arguments of `VideoConverter.convert_video`. -/
structure ConvRequest where
  input : PyPath
  output : Option PyPath
  container : String
  overwrite : Bool
  deriving DecidableEq

/-- Environment a single `convert_video` call runs against: input-path
facts, output existence at policy-check time, probe result (non-fatal,
only suppresses the summary log), whether `mkdir` raises, the ffmpeg exit
status (`none` models `TimeoutExpired`), the verification view and the
measured elapsed time. -/
structure ConvEnv where
  inputExists : Bool
  inputIsFile : Bool
  outputExists : PyPath → Bool
  probeOk : Bool
  mkdirRaises : Bool
  engineRun : Option Int
  verifyEnv : VerifyEnv
  elapsed : Rat

/-- Output path derivation of `convert_video` step 3:
`input_file.with_suffix(dot container)` when no output is given. -/
def deriveOutput (req : ConvRequest) : PyPath :=
  match req.output with
  | none => req.input.withSuffix (("." : String) ++ req.container)
  | some p => p

inductive PyExn where
  | videoProcessing : String → PyExn
  | timeoutExpired : PyExn
  | otherExn : PyExn
  deriving DecidableEq

def msgInputNotFound : String :=
  ("Input file not found")

def msgInputNotFile : String :=
  ("Input path is not a file")

def msgBadContainer : String :=
  ("Unsupported container format")

/-- Result of the `try` block inside `convert_video`: either a normal
return carrying the boolean, the stats after the block, and whether ffmpeg
was spawned, or a raised exception together with the spawn flag. -/
inductive BodyResult where
  | ret : Bool → Stats → Bool → BodyResult
  | exn : PyExn → Bool → BodyResult
  deriving DecidableEq

/-- The `try` block of `convert_video` (source lines 312 through 408),
started with the stats as they stand after the attempt-registering call. -/
def convertVideoBody (env : ConvEnv) (req : ConvRequest) (s1 : Stats) : BodyResult :=
  if env.inputExists = false then BodyResult.exn (PyExn.videoProcessing msgInputNotFound) false
  else if env.inputIsFile = false then BodyResult.exn (PyExn.videoProcessing msgInputNotFile) false
  else if req.container ∉ (["mkv", "mp4"] : List String) then
    BodyResult.exn (PyExn.videoProcessing msgBadContainer) false
  else
    let out := deriveOutput req
    if env.outputExists out = true ∧ req.overwrite = false then
      BodyResult.ret false s1 false
    else if env.mkdirRaises then BodyResult.exn PyExn.otherExn false
    else
      match env.engineRun with
      | none => BodyResult.exn PyExn.timeoutExpired true
      | some code =>
        if code = 0 then
          if (verifyOutputRun env.verifyEnv).fst then
            BodyResult.ret true (updateStats s1 false true env.elapsed) true
          else
            BodyResult.ret false (updateStats s1 false false env.elapsed) true
        else BodyResult.ret false (updateStats s1 false false env.elapsed) true

/-- Per-call result of `convert_video`: the returned boolean, the stats
after the call, and whether the transcode engine was spawned. -/
structure ConvResult where
  result : Bool
  stats : Stats
  spawned : Bool

/-- `VideoConverter.convert_video`: registers the attempt, runs the body,
and converts any raised exception into a `False` outcome record. -/
def convertVideo (env : ConvEnv) (req : ConvRequest) (s : Stats) : ConvResult :=
  let s1 := updateStats s true false 0
  match convertVideoBody env req s1 with
  | BodyResult.ret b s2 sp => ConvResult.mk b s2 sp
  | BodyResult.exn _ sp => ConvResult.mk false (updateStats s1 false false env.elapsed) sp

/-- A finished sequence of `convert_video` calls against one shared stats
record, as the Statistics Tracker sees it once every job has returned. -/
def runJobs : List (ConvEnv × ConvRequest) → Stats → Stats
  | [], s => s
  | j :: rest, s => runJobs rest (convertVideo j.fst j.snd s).stats

/-- Exit statuses of the two version probes run by
`check_ffmpeg_availability`; `none` models FileNotFoundError, a timeout or
any other raised error, all of which yield an unavailable result. -/
structure ToolEnv where
  ffmpegRun : Option Int
  ffprobeRun : Option Int
  deriving DecidableEq

/-- `check_ffmpeg_availability`: available exactly when both the ffmpeg
and the ffprobe version probes exit with status 0. -/
def checkFfmpegAvailability (t : ToolEnv) : Bool :=
  match t.ffmpegRun with
  | none => false
  | some c =>
    if c = 0 then
      match t.ffprobeRun with
      | none => false
      | some pc => if pc = 0 then true else false
    else false

/-- `BatchConverter.convert_directory` result dictionary. -/
structure BatchResult where
  total : Nat
  successful : Nat
  failed : Nat
  deriving DecidableEq

/-- What `future.result()` yields for one submitted job: the job's boolean,
or a raised fault caught at the orchestrator boundary. -/
inductive JobOutcome where
  | ok : Bool → JobOutcome
  | raised : JobOutcome
  deriving DecidableEq

/-- One turn of the completion-consuming loop in `convert_directory`. -/
def tallyOutcome (r : BatchResult) (j : JobOutcome) : BatchResult :=
  match j with
  | JobOutcome.ok true => BatchResult.mk r.total (r.successful + 1) r.failed
  | JobOutcome.ok false => BatchResult.mk r.total r.successful (r.failed + 1)
  | JobOutcome.raised => BatchResult.mk r.total r.successful (r.failed + 1)

/-- `BatchConverter.convert_directory` aggregation: an empty candidate list
returns the zero record at once; otherwise the loop consumes the job
completions in whatever order they arrive. -/
def convertDirectory (files : List PyPath) (completions : List JobOutcome) : BatchResult :=
  if files.isEmpty then BatchResult.mk 0 0 0
  else completions.foldl tallyOutcome (BatchResult.mk files.length 0 0)

/-- Batch-mode output path for one candidate (source lines 641 through
649): relative to the input root under the output root when they differ,
alongside the input otherwise. -/
def batchOutputFor (inputDir outputDir : PyPath) (container : String) (f : PyPath) : PyPath :=
  if outputDir ≠ inputDir then
    outputDir.join ((f.relativeTo inputDir).withSuffix (("." : String) ++ container))
  else
    f.withSuffix (("." : String) ++ container)

/-- One directory entry as `find_video_files` inspects it. -/
structure DirEntry where
  path : PyPath
  isFile : Bool
  deriving DecidableEq

/-- `BatchConverter.video_extensions`, dots included as in the source. -/
def videoExtensions : List String :=
  [".dav", ".avi", ".mp4", ".mkv", ".mov", ".wmv", ".flv", ".webm",
   ".m4v", ".3gp", ".3g2", ".asf", ".rm", ".rmvb", ".vob", ".ts"]

/-- The filter of `find_video_files`:
`file_path.is_file() and file_path.suffix.lower() in self.video_extensions`. -/
def isVideoCandidate (e : DirEntry) : Bool :=
  e.isFile && decide (pyLower (pySuffix e.path.name) ∈ videoExtensions)

/-- `BatchConverter.find_video_files` over an enumerated directory:
filter, then `sorted(video_files)`. -/
def findVideoFiles (entries : List DirEntry) : List PyPath :=
  ((entries.filter isVideoCandidate).map DirEntry.path).mergeSort
    (fun p q => decide (p.render ≤ q.render))

/-- Run mode selected by `main`: single-file result or batch result. -/
inductive RunMode where
  | single : Bool → RunMode
  | batch : BatchResult → RunMode
  deriving DecidableEq

/-- Environment of one `main` run: tool probes, whether the operator
interrupts the run, and the outcome of the selected mode. -/
structure MainEnv where
  tools : ToolEnv
  interrupted : Bool
  mode : RunMode
  deriving DecidableEq

/-- Exit-code logic of `main` (source lines 769 through 849):
KeyboardInterrupt maps to 130, a failed tool check raises
FFmpegNotFoundError which maps to 127, single-file mode returns 0 or 1,
and batch mode encodes the zero-failures / partial / all-failed split. -/
def mainExit (e : MainEnv) : Nat :=
  if e.interrupted then 130
  else if checkFfmpegAvailability e.tools = false then 127
  else
    match e.mode with
    | RunMode.single ok => if ok then 0 else 1
    | RunMode.batch r =>
      if r.failed = 0 then 0
      else if 0 < r.successful then 2
      else 1

/-- A verification view that passes with a comfortable size quotient. -/
def sampleVerifyOk : VerifyEnv :=
  VerifyEnv.mk true (some 1000) (some 1000)

/-- Environment in which one conversion runs through every step and
succeeds. -/
def successEnv : ConvEnv :=
  ConvEnv.mk true true (fun _ => false) true false (some 0) sampleVerifyOk 0

/-- Environment in which ffmpeg runs but exits with status 1. -/
def engineFailEnv : ConvEnv :=
  ConvEnv.mk true true (fun _ => false) true false (some 1) sampleVerifyOk 0

/-- Environment in which the input file does not exist. -/
def missingInputEnv : ConvEnv :=
  ConvEnv.mk false true (fun _ => false) true false (some 0) sampleVerifyOk 0

/-- Environment in which the output path already exists. -/
def rejectEnv : ConvEnv :=
  ConvEnv.mk true true (fun _ => true) true false (some 0) sampleVerifyOk 0

def sampleReq : ConvRequest :=
  ConvRequest.mk (PyPath.mk [("video.dav")]) none ("mkv") true

def noOverwriteReq : ConvRequest :=
  ConvRequest.mk (PyPath.mk [("video.dav")]) none ("mkv") false

def emptyStats : Stats :=
  Stats.mk 0 0 0 0

/-- C1: the claim states that once all submitted jobs have completed the
tracker satisfies attempted = successful + failed.  The code violates it:
the attempt-registering call to `_update_stats` falls into the
unconditional `else` branch and also increments the failed counter, so one
completed successful job leaves attempted = 1 but successful + failed = 2. -/
theorem c1_stats_conservation_fails_on_one_success :
    (runJobs [(successEnv, sampleReq)] emptyStats).attempted = 1 ∧
    (runJobs [(successEnv, sampleReq)] emptyStats).successful = 1 ∧
    (runJobs [(successEnv, sampleReq)] emptyStats).failed = 1 ∧
    ¬ (runJobs [(successEnv, sampleReq)] emptyStats).attempted =
        (runJobs [(successEnv, sampleReq)] emptyStats).successful +
          (runJobs [(successEnv, sampleReq)] emptyStats).failed := by
  decide

/-- C2: the claim states that each `convert_video` call adds exactly one
succeeded-or-failed increment.  The code adds two: starting from zero
stats, a single successful call leaves successful + failed = 2, and a
single engine-failure call leaves failed = 2. -/
theorem c2_two_outcome_increments_per_call :
    ((convertVideo successEnv sampleReq emptyStats).stats.successful +
      (convertVideo successEnv sampleReq emptyStats).stats.failed = 2) ∧
    (convertVideo engineFailEnv sampleReq emptyStats).stats.failed = 2 := by
  decide

/-- C3: whenever the derived or explicit output path exists and overwrite
is disabled, `convert_video` returns `False` and never spawns ffmpeg. -/
theorem c3_overwrite_policy_rejection (env : ConvEnv) (req : ConvRequest) (s : Stats)
    (hex : env.outputExists (deriveOutput req) = true) (hov : req.overwrite = false) :
    (convertVideo env req s).result = false ∧ (convertVideo env req s).spawned = false := by
  unfold convertVideo convertVideoBody
  cases hie : env.inputExists
  · simp [hie]
  · cases hif : env.inputIsFile
    · simp [hie, hif]
    · by_cases hc : req.container ∈ (["mkv", "mp4"] : List String)
      · simp [hie, hif, hc, hex, hov]
      · simp [hie, hif, hc]

theorem c3_witness :
    (convertVideo rejectEnv noOverwriteReq emptyStats).result = false ∧
    (convertVideo rejectEnv noOverwriteReq emptyStats).spawned = false :=
  c3_overwrite_policy_rejection rejectEnv noOverwriteReq emptyStats rfl rfl

/-- C8: `convert_video` always yields a plain boolean; every exception the
body raises is caught locally and converted to `False`, and every normal
return of the body is passed through unchanged, so no fault crosses the
job boundary. -/
theorem c8_failures_become_false (env : ConvEnv) (req : ConvRequest) (s : Stats) :
    (∀ e sp, convertVideoBody env req (updateStats s true false 0) = BodyResult.exn e sp →
      (convertVideo env req s).result = false) ∧
    (∀ b s2 sp, convertVideoBody env req (updateStats s true false 0) = BodyResult.ret b s2 sp →
      (convertVideo env req s).result = b) := by
  constructor
  · intro e sp h
    simp [convertVideo, h]
  · intro b s2 sp h
    simp [convertVideo, h]

theorem c8_witness :
    (convertVideo missingInputEnv sampleReq emptyStats).result = false :=
  (c8_failures_become_false missingInputEnv sampleReq emptyStats).1
    (PyExn.videoProcessing msgInputNotFound) false rfl

/-- C4: verification fails exactly when the output path is missing, its
size reads as zero, or inspecting the files raises; an out-of-range size
quotient between two readable files still verifies and only sets the
warning flag. -/
theorem c4_verification_characterization (e : VerifyEnv) :
    ((verifyOutputRun e).fst = false ↔
      e.outputExists = false ∨ e.outputStat = none ∨ e.outputStat = some 0 ∨
        e.inputStat = none) ∧
    (∀ osz isz, e.outputExists = true → e.outputStat = some osz → 0 < osz →
      e.inputStat = some isz → 0 < isz →
      (guardedQuot osz isz < 4/5 ∨ 6/5 < guardedQuot osz isz) →
      verifyOutputRun e = (true, true)) := by
  obtain ⟨oe, ost, ist⟩ := e
  constructor
  · cases oe with
    | false => simp [verifyOutputRun]
    | true =>
      cases ost with
      | none => simp [verifyOutputRun]
      | some osz =>
        cases ist with
        | none => simp [verifyOutputRun]
        | some isz =>
          by_cases h0 : osz = 0
          · subst h0
            simp [verifyOutputRun]
          · simp [verifyOutputRun, h0]
  · intro osz isz hoe host hpos hist hipos hq
    simp only at hoe host hist
    subst hoe
    subst host
    subst hist
    have h0 : ¬ osz = 0 := by omega
    simp [verifyOutputRun, h0, hq]

theorem c4_witness :
    verifyOutputRun (VerifyEnv.mk true (some 200) (some 100)) = (true, true) :=
  (c4_verification_characterization (VerifyEnv.mk true (some 200) (some 100))).2 200 100
    rfl rfl (by decide) rfl (by decide)
    (Or.inr (by norm_num [guardedQuot]))

/-- C5: the exit code encodes the outcome: 130 on operator interruption,
127 when the ffmpeg/ffprobe pair is unavailable, 0/1 for single-file
success/failure, and 0 / 1 / 2 for a batch with no failures / no successes
and some failure / at least one of each. -/
theorem c5_exit_code_mapping (e : MainEnv) :
    (e.interrupted = true → mainExit e = 130) ∧
    (e.interrupted = false → checkFfmpegAvailability e.tools = false → mainExit e = 127) ∧
    (e.interrupted = false → checkFfmpegAvailability e.tools = true →
      (∀ ok, e.mode = RunMode.single ok → mainExit e = (if ok then 0 else 1)) ∧
      (∀ r, e.mode = RunMode.batch r →
        (r.failed = 0 → mainExit e = 0) ∧
        (r.successful = 0 → 0 < r.failed → mainExit e = 1) ∧
        (0 < r.successful → 0 < r.failed → mainExit e = 2))) := by
  refine ⟨?_, ?_, ?_⟩
  · intro h
    simp [mainExit, h]
  · intro h1 h2
    simp [mainExit, h1, h2]
  · intro h1 h2
    constructor
    · intro ok hm
      simp [mainExit, h1, h2, hm]
    · intro r hm
      refine ⟨?_, ?_, ?_⟩
      · intro hf
        simp [mainExit, h1, h2, hm, hf]
      · intro hs hf
        have h3 : ¬ r.failed = 0 := by omega
        simp [mainExit, h1, h2, hm, h3, hs]
      · intro hs hf
        have h3 : ¬ r.failed = 0 := by omega
        simp [mainExit, h1, h2, hm, h3, hs]

theorem c5_witness :
    mainExit (MainEnv.mk (ToolEnv.mk (some 0) (some 0)) false
      (RunMode.batch (BatchResult.mk 4 2 2))) = 2 :=
  (((c5_exit_code_mapping (MainEnv.mk (ToolEnv.mk (some 0) (some 0)) false
      (RunMode.batch (BatchResult.mk 4 2 2)))).2.2 rfl rfl).2
    (BatchResult.mk 4 2 2) rfl).2.2 (by decide) (by decide)

/-- C10: with a zero-size input and a readable positive-size output, the
size quotient is defined as 0 instead of dividing by zero, and
verification returns success with only the out-of-range warning set. -/
theorem c10_zero_input_size_guarded (n : Nat) (hn : 0 < n) :
    guardedQuot n 0 = 0 ∧
    verifyOutputRun (VerifyEnv.mk true (some n) (some 0)) = (true, true) := by
  have h0 : guardedQuot n 0 = 0 := by simp [guardedQuot]
  refine ⟨h0, ?_⟩
  have hne : ¬ n = 0 := by omega
  simp [verifyOutputRun, hne, h0]

theorem c10_witness :
    guardedQuot 7 0 = 0 ∧
    verifyOutputRun (VerifyEnv.mk true (some 7) (some 0)) = (true, true) :=
  c10_zero_input_size_guarded 7 (by decide)

/-- Folding the completion loop adds exactly one outcome increment per
consumed completion and leaves the total untouched. -/
theorem tallyFoldCounts (l : List JobOutcome) (r : BatchResult) :
    ((l.foldl tallyOutcome r).successful + (l.foldl tallyOutcome r).failed
      = r.successful + r.failed + l.length) ∧
    (l.foldl tallyOutcome r).total = r.total := by
  induction l generalizing r with
  | nil => simp
  | cons j rest ih =>
    obtain ⟨h1, h2⟩ := ih (tallyOutcome r j)
    rw [List.foldl_cons]
    cases j with
    | ok b =>
      cases b <;> simp [tallyOutcome] at h1 h2 ⊢ <;> omega
    | raised =>
      simp [tallyOutcome] at h1 h2 ⊢
      omega

/-- C6: a completed batch satisfies total = successful + failed whenever
the consumed completions are the submitted jobs in any completion order,
and a job that raises is tallied as one failure. -/
theorem c6_batch_conservation (files : List PyPath) (outcome : PyPath → JobOutcome)
    (completions : List JobOutcome)
    (hperm : completions.Perm (files.map outcome)) :
    ((convertDirectory files completions).total =
      (convertDirectory files completions).successful +
        (convertDirectory files completions).failed) ∧
    (∀ r, tallyOutcome r JobOutcome.raised =
      BatchResult.mk r.total r.successful (r.failed + 1)) := by
  constructor
  · have hlen : completions.length = files.length := by
      have h := hperm.length_eq
      simpa using h
    by_cases hf : files.isEmpty
    · simp [convertDirectory, hf]
    · obtain ⟨h1, h2⟩ := tallyFoldCounts completions (BatchResult.mk files.length 0 0)
      simp only [convertDirectory, hf, if_false, Bool.false_eq_true, ite_false]
      simp at h1 h2
      omega
  · intro r
    rfl

def wFiles : List PyPath :=
  [PyPath.mk [("a.dav")], PyPath.mk [("b.dav")]]

def wOutcome : PyPath → JobOutcome :=
  fun p => if p = PyPath.mk [("a.dav")] then JobOutcome.ok true else JobOutcome.raised

def wCompletions : List JobOutcome :=
  [JobOutcome.raised, JobOutcome.ok true]

theorem c6_witness :
    ((convertDirectory wFiles wCompletions).total =
      (convertDirectory wFiles wCompletions).successful +
        (convertDirectory wFiles wCompletions).failed) ∧
    (∀ r, tallyOutcome r JobOutcome.raised =
      BatchResult.mk r.total r.successful (r.failed + 1)) :=
  c6_batch_conservation wFiles wOutcome wCompletions (by decide)

/-- C9: a regular file inspected by discovery lands in the result exactly
when its lower-cased extension is in the fixed allow-list. -/
theorem c9_extension_filter (entries : List DirEntry) (e : DirEntry)
    (he : e ∈ entries) (hf : e.isFile = true) :
    (e.path ∈ findVideoFiles entries ↔
      pyLower (pySuffix e.path.name) ∈ videoExtensions) := by
  unfold findVideoFiles
  rw [(List.mergeSort_perm ((entries.filter isVideoCandidate).map DirEntry.path) _).mem_iff]
  constructor
  · intro hmem
    rcases List.mem_map.mp hmem with ⟨a, ha, hpa⟩
    rcases List.mem_filter.mp ha with ⟨_, hcand⟩
    simp [isVideoCandidate] at hcand
    rw [← hpa]
    exact hcand.2
  · intro hext
    apply List.mem_map.mpr
    refine ⟨e, List.mem_filter.mpr ⟨he, ?_⟩, rfl⟩
    simp [isVideoCandidate, hf, hext]

def wEntry : DirEntry :=
  DirEntry.mk (PyPath.mk [("clip.DAV")]) true

theorem c9_witness :
    PyPath.mk [("clip.DAV")] ∈ findVideoFiles [wEntry] :=
  (c9_extension_filter [wEntry] wEntry (by decide) rfl).mpr (by decide)

theorem lastDotSplit_eq_none (cs : List Char) (h : ('.') ∉ cs) :
    lastDotSplit cs = none := by
  induction cs with
  | nil => rfl
  | cons c rest ih =>
    have hc : ¬ c = '.' := by
      intro hh
      exact h (by simp [hh])
    have hrest : ('.') ∉ rest := fun hm => h (List.mem_cons_of_mem c hm)
    simp [lastDotSplit, ih hrest, hc]

theorem lastDotSplit_append (stem ext : List Char) (hext : ('.') ∉ ext) :
    lastDotSplit (stem ++ ('.') :: ext) = some (stem, ext) := by
  induction stem with
  | nil => simp [lastDotSplit, lastDotSplit_eq_none ext hext]
  | cons s ss ih => simp [lastDotSplit, ih]

theorem pySuffixCore_append (stem ext : List Char) (hs : stem ≠ []) (he : ext ≠ [])
    (hd : ('.') ∉ ext) : pySuffixCore (stem ++ ('.') :: ext) = ('.') :: ext := by
  simp [pySuffixCore, lastDotSplit_append stem ext hd, hs, he]

theorem pyWithSuffixCore_append (stem ext ns : List Char) (hs : stem ≠ []) (he : ext ≠ [])
    (hd : ('.') ∉ ext) : pyWithSuffixCore (stem ++ ('.') :: ext) ns = stem ++ ns := by
  unfold pyWithSuffixCore
  rw [pySuffixCore_append stem ext hs he hd]
  have hlen : (stem ++ ('.') :: ext).length - (('.') :: ext).length = stem.length := by
    rw [List.length_append]
    omega
  rw [hlen, List.take_left]

theorem stringMkAppendDot (ctok : List Char) :
    ((("." : String)) ++ String.mk ctok).data = ('.') :: ctok := rfl

/-- C7: with no explicit output, the derived output is the input path with
its extension replaced by the container token; in batch mode with a
distinct output root, each candidate maps to the output root joined with
its input-root-relative path, extension replaced. -/
theorem c7_output_path_derivation
    (inDirs restDirs outDirs : List String) (stem ext ctok : List Char)
    (hs : stem ≠ []) (he : ext ≠ []) (hd : ('.') ∉ ext) :
    (deriveOutput (ConvRequest.mk (PyPath.mk (inDirs ++ [String.mk (stem ++ ('.') :: ext)]))
        none (String.mk ctok) true)
      = PyPath.mk (inDirs ++ [String.mk (stem ++ ('.') :: ctok)])) ∧
    (PyPath.mk outDirs ≠ PyPath.mk inDirs →
      batchOutputFor (PyPath.mk inDirs) (PyPath.mk outDirs) (String.mk ctok)
          (PyPath.mk (inDirs ++ restDirs ++ [String.mk (stem ++ ('.') :: ext)]))
        = PyPath.mk (outDirs ++ (restDirs ++ [String.mk (stem ++ ('.') :: ctok)]))) := by
  have hws : pyWithSuffix (String.mk (stem ++ ('.') :: ext))
      ((("." : String)) ++ String.mk ctok) = String.mk (stem ++ ('.') :: ctok) := by
    unfold pyWithSuffix
    rw [stringMkAppendDot]
    show String.mk (pyWithSuffixCore (stem ++ ('.') :: ext) (('.') :: ctok)) = _
    rw [pyWithSuffixCore_append stem ext (('.') :: ctok) hs he hd]
  constructor
  · simp [deriveOutput, PyPath.withSuffix, PyPath.name, List.getLast?_concat,
      List.dropLast_concat, hws]
  · intro hne
    unfold batchOutputFor
    rw [if_pos hne]
    unfold PyPath.relativeTo PyPath.join
    simp only [List.append_assoc, List.drop_left]
    simp [PyPath.withSuffix, PyPath.name, List.getLast?_concat, List.dropLast_concat, hws]

theorem c7_witness :
    (deriveOutput (ConvRequest.mk
        (PyPath.mk ([("in")] ++ [String.mk (['b'] ++ ('.') :: ['d', 'a', 'v'])]))
        none (String.mk ['m', 'k', 'v']) true)
      = PyPath.mk ([("in")] ++ [String.mk (['b'] ++ ('.') :: ['m', 'k', 'v'])])) ∧
    (batchOutputFor (PyPath.mk [("in")]) (PyPath.mk [("out")]) (String.mk ['m', 'k', 'v'])
        (PyPath.mk ([("in")] ++ [("a")] ++ [String.mk (['b'] ++ ('.') :: ['d', 'a', 'v'])]))
      = PyPath.mk ([("out")] ++ ([("a")] ++ [String.mk (['b'] ++ ('.') :: ['m', 'k', 'v'])]))) :=
  have h := c7_output_path_derivation [("in")] [("a")] [("out")] ['b'] ['d', 'a', 'v']
    ['m', 'k', 'v'] (by decide) (by decide) (by decide)
  And.intro h.1 (h.2 (by decide))
